import Mathlib

/-!
A shallow embedding of the luascan language-server backend (src/parser.rs and
src/lsp.rs), used to settle the specification's claims about coordinate
translation, dialect handling, workspace indexing, document-store updates,
lock-failure containment and position-encoding negotiation.

External collaborators are abstracted as parameters:
  * the full_moon parser (`parse_fallible`) as a function
    `String → LuaVersion → List FullMoonError`;
  * the filesystem (path existence, file reads, glob enumeration, URL
    conversion) as a `FileSystem` record of pure functions;
  * the client handle: instead of sending notifications, handlers return the
    list of `publish_diagnostics` notifications they would emit.
Rust panics (`expect`, `panic!`, out-of-bounds indexing) are modelled by the
`PResult.panicked` constructor; `RwLock` poisoning by a boolean on `Lock`.
-/

namespace Luascan

/-- Filesystem paths (`std::path::PathBuf`), kept abstract as strings. -/
abbrev PathBuf := String

/-- Modelled from the spec: `config.rs` is declared by `main.rs` (`mod config;`)
but is absent from the sources. The spec gives the dialect as
`enum{v5.1, v5.2, v5.3, v5.4}` and speaks of "unsupported/unrecognized dialect
value"s, and the match in `parser.rs::parse` has a wildcard arm, so the model
adds one constructor standing for every value outside the four supported
versions. -/
inductive RuntimeVersion where
  | Lua51
  | Lua52
  | Lua53
  | Lua54
  | Unsupported (name : String)
deriving DecidableEq, Repr

/-- full_moon's `LuaVersion` (external collaborator), one value per
`LuaVersion::lua51()` .. `lua54()` constructor used in `parser.rs`. -/
inductive LuaVersion where
  | lua51
  | lua52
  | lua53
  | lua54
deriving DecidableEq, Repr

/-- `parser::Location` (parser.rs): a raw 1-based span. -/
structure Location where
  line_start : Nat
  line_end : Nat
  col_start : Nat
  col_end : Nat
deriving DecidableEq, Repr

/-- `parser::LuascanDiagnostic` (parser.rs). -/
structure LuascanDiagnostic where
  loc : Location
  msg : String
deriving DecidableEq, Repr

/-- A full_moon source position: `line()` and `character()` accessors. -/
structure FmPosition where
  line : Nat
  character : Nat
deriving DecidableEq, Repr

/-- full_moon's error type as `parser.rs` consumes it: an AST error carries a
token with start/end positions and an error message; a tokenizer error carries
a position range and an error message. -/
inductive FullMoonError where
  | astError (startPos endPos : FmPosition) (message : String)
  | tokenizerError (startPos endPos : FmPosition) (message : String)
deriving DecidableEq, Repr

/-- The external fault-tolerant parser `full_moon::parse_fallible`, abstracted
as the list of errors it reports for a given source and Lua version. -/
abbrev ParseFallible := String → LuaVersion → List FullMoonError

/-- The result of a Rust computation that can panic (`expect`, `panic!`,
out-of-bounds indexing). -/
inductive PResult (α : Type) where
  | ok (a : α)
  | panicked (msg : String)
deriving DecidableEq, Repr

/-- Functorial action on the non-panicking result. -/
def PResult.map (f : α → β) : PResult α → PResult β
  | .ok a => .ok (f a)
  | .panicked m => .panicked m

/-- Whether the computation panicked. -/
def PResult.isPanicked : PResult α → Bool
  | .ok _ => false
  | .panicked _ => true

/-- The body of the `for e in ast.errors()` loop in `parser.rs::parse`: both
error variants are turned into a `LuascanDiagnostic` from the same position
accessors and message. -/
def toLuascanDiagnostic : FullMoonError → LuascanDiagnostic
  | .astError s e m => ⟨⟨s.line, e.line, s.character, e.character⟩, m⟩
  | .tokenizerError s e m => ⟨⟨s.line, e.line, s.character, e.character⟩, m⟩

/-- `parser.rs::parse`: first the `RuntimeVersion` is matched into a full_moon
`LuaVersion` — the wildcard arm is `panic!("failed version")`, reached before
`parse_fallible` is invoked — then the errors of the fallible parse are
converted one by one. -/
def parse (pf : ParseFallible) (code : String) (version : RuntimeVersion) :
    PResult (List LuascanDiagnostic) :=
  match version with
  | .Lua51 => .ok ((pf code .lua51).map toLuascanDiagnostic)
  | .Lua52 => .ok ((pf code .lua52).map toLuascanDiagnostic)
  | .Lua53 => .ok ((pf code .lua53).map toLuascanDiagnostic)
  | .Lua54 => .ok ((pf code .lua54).map toLuascanDiagnostic)
  | .Unsupported _ => .panicked "failed version"

/-- An `lsp_types::Url`: `path()` returns the path component, `to_file_path()`
is a fallible conversion to a filesystem path. Both are kept as data of the
abstract URL value. -/
structure Url where
  path : String
  filePath : Option PathBuf
deriving DecidableEq, Repr

/-- The filesystem environment: `Path::exists`, `Path::is_file`, opening and
reading a file (`None` models an I/O failure of `File::open` or
`read_to_string`), `glob::glob` enumeration (each entry either a discovered
path or a glob error), and `Url::from_file_path`. -/
structure FileSystem where
  pathExists : PathBuf → Bool
  is_file : PathBuf → Bool
  readFile : PathBuf → Option String
  glob : String → List (Except String PathBuf)
  from_file_path : PathBuf → Option Url

/-- An `std::sync::RwLock` together with its poisoning state. -/
structure Lock (α : Type) where
  poisoned : Bool
  val : α
deriving DecidableEq, Repr

/-- `RwLock::read`: `Err` exactly when the lock is poisoned. -/
def Lock.readLock (l : Lock α) : Option α :=
  if l.poisoned then none else some l.val

/-- `RwLock::write` followed by a mutation of the guarded value; when the lock
is poisoned the `if let Ok(..)` pattern fails and nothing happens. -/
def Lock.modify (l : Lock α) (f : α → α) : Lock α :=
  if l.poisoned then l else { l with val := f l.val }

/-- Insert into the document map (`HashMap::insert`): replaces the entry with
the same key, otherwise appends. -/
def insertDoc : List (PathBuf × String) → PathBuf → String → List (PathBuf × String)
  | [], p, c => [(p, c)]
  | (q, d) :: rest, p, c =>
      if q = p then (p, c) :: rest else (q, d) :: insertDoc rest p c

/-- Lookup in the document map (`HashMap::get`). -/
def lookupDoc : List (PathBuf × String) → PathBuf → Option String
  | [], _ => none
  | (q, d) :: rest, p => if q = p then some d else lookupDoc rest p

/-- `lsp.rs::Backend`: the shared state of the server — the optional workspace
root and the document store, each behind an `RwLock`. The client handle is not
state; notifications sent through it are returned by the handlers. -/
structure Backend where
  root : Lock (Option PathBuf)
  workspace : Lock (List (PathBuf × String))
deriving DecidableEq, Repr

/-- `Backend::new`: fresh unpoisoned locks, no root, empty store. The
`LspOptions` argument is bound to `_` in the source and discarded. -/
def Backend.new : Backend := ⟨⟨false, none⟩, ⟨false, []⟩⟩

/-- `Backend::set_root`: stores the path only when it exists on disk (a write
on a poisoned lock is silently skipped); a non-existent path is an `Err`. -/
def set_root (fs : FileSystem) (st : Backend) (path : PathBuf) :
    Backend × Except String Unit :=
  if fs.pathExists path then
    ({ st with root := st.root.modify (fun _ => some path) }, .ok ())
  else
    (st, .error "failed to set root path")

/-- `Backend::get_root`: a failed (poisoned) read yields `None`, like an unset
root. -/
def get_root (st : Backend) : Option PathBuf :=
  match st.root.readLock with
  | some r => r
  | none => none

/-- `Backend::set_doc`: insert into the store; a failed (poisoned) write is
silently skipped. -/
def set_doc (st : Backend) (path : PathBuf) (content : String) : Backend :=
  { st with workspace := st.workspace.modify (fun m => insertDoc m path content) }

/-- `Backend::get_doc`: a failed (poisoned) read yields `None`, like an absent
entry. -/
def get_doc (st : Backend) (path : PathBuf) : Option String :=
  match st.workspace.readLock with
  | some m => lookupDoc m path
  | none => none

/-- An LSP `Position` (0-based line/character). -/
structure Position where
  line : Nat
  character : Nat
deriving DecidableEq, Repr

/-- An LSP `Range`; the source field `end` is a Lean keyword, written `«end»`
here. -/
structure Range where
  start : Position
  «end» : Position
deriving DecidableEq, Repr

/-- The fields of `lsp_types::Diagnostic` that `check_syntax` sets; severity 1
is `DiagnosticSeverity::ERROR`. -/
structure Diagnostic where
  range : Range
  severity : Option Nat
  message : String
  code : Option String
  source : Option String
deriving DecidableEq, Repr

/-- `(x as u32).saturating_sub(1)` applied to a `usize`: the cast truncates
modulo 2^32, and saturating subtraction on `Nat` is ordinary truncated
subtraction. -/
def satSub1u32 (n : Nat) : Nat := n % 4294967296 - 1

/-- The per-error translation inside `Backend::check_syntax`: each of the four
raw 1-based coordinates is cast to `u32` and decremented saturatingly,
independently; severity, code and source tags are fixed. -/
def toLspDiagnostic (d : LuascanDiagnostic) : Diagnostic :=
  { range :=
      { start :=
          { line := satSub1u32 d.loc.line_start
            character := satSub1u32 d.loc.col_start }
        «end» :=
          { line := satSub1u32 d.loc.line_end
            character := satSub1u32 d.loc.col_end } }
    severity := some 1
    message := d.msg
    code := some "luascan code"
    source := some "luascan source" }

/-- One `publish_diagnostics(uri, diagnostics, None)` notification. -/
structure Publication where
  uri : Url
  diagnostics : List Diagnostic
deriving DecidableEq, Repr

/-- `Backend::check_syntax`: parses the given content with the fixed dialect
`RuntimeVersion::Lua51`, translates every reported error, and unconditionally
publishes the resulting (possibly empty) diagnostic list for the URI. -/
def checkSyntax (pf : ParseFallible) (uri : Url) (content : String) :
    PResult (List Publication) :=
  (parse pf content RuntimeVersion.Lua51).map
    (fun errs => [⟨uri, errs.map toLspDiagnostic⟩])

/-- `lsp_types::PositionEncodingKind`: the three named constants plus any other
string value a client may offer. -/
inductive PositionEncodingKind where
  | utf8
  | utf16
  | utf32
  | other (s : String)
deriving DecidableEq, Repr

/-- The `general.position_encodings` part of `ClientCapabilities`. -/
structure GeneralClientCapabilities where
  position_encodings : Option (List PositionEncodingKind)
deriving DecidableEq, Repr

/-- Client capabilities, restricted to the field `initialize` reads. -/
structure ClientCapabilities where
  general : Option GeneralClientCapabilities
deriving DecidableEq, Repr

/-- `InitializeParams`, restricted to the fields `initialize` reads. -/
structure InitializeParams where
  capabilities : ClientCapabilities
  root_uri : Option Url
deriving DecidableEq, Repr

/-- `lsp_types::ServerInfo`. -/
structure ServerInfo where
  name : String
  version : Option String
deriving DecidableEq, Repr

/-- The fields of `ServerCapabilities` the server sets: full-document sync
(`TextDocumentSyncKind::FULL` = 1), the negotiated position encoding, and
workspace-folder support. -/
structure ServerCapabilities where
  text_document_sync_change : Nat
  position_encoding : Option PositionEncodingKind
  workspace_folders_supported : Bool
deriving DecidableEq, Repr

/-- `lsp_types::InitializeResult`. -/
structure InitializeResult where
  server_info : Option ServerInfo
  capabilities : ServerCapabilities
deriving DecidableEq, Repr

/-- `env!("CARGO_PKG_VERSION")`; the manifest is not among the sources, so the
value is opaque. -/
def VERSION : String := "CARGO_PKG_VERSION"

/-- `Backend::initialize`: negotiates the position encoding by the nested
match of the source (general capabilities absent, or the encodings list
absent, yield no encoding; otherwise UTF-8, then UTF-16, then UTF-32, else
none); when a root URI is present, `set_root` is attempted and its result
discarded (`let _ =`); always returns the `InitializeResult`. -/
def initializeLsp (fs : FileSystem) (st : Backend) (params : InitializeParams) :
    Backend × InitializeResult :=
  let position_encoding :=
    match params.capabilities.general with
    | some general_cap =>
      match general_cap.position_encodings with
      | some encodings =>
          if encodings.contains PositionEncodingKind.utf8 then
            some PositionEncodingKind.utf8
          else if encodings.contains PositionEncodingKind.utf16 then
            some PositionEncodingKind.utf16
          else if encodings.contains PositionEncodingKind.utf32 then
            some PositionEncodingKind.utf32
          else
            none
      | none => none
    | none => none
  let server_info := some { name := "luascan", version := some VERSION : ServerInfo }
  let st' :=
    match params.root_uri with
    | some url => (set_root fs st url.path).1
    | none => st
  (st',
   { server_info
     capabilities :=
       { text_document_sync_change := 1
         position_encoding
         workspace_folders_supported := true } })

/-- `PathBuf::push` of the glob pattern onto the root path. -/
def pushPath (root pat : PathBuf) : PathBuf := root ++ "/" ++ pat

/-- The `for entry in glob(..)` loop of `Backend::initialized`: a glob `Err`
entry is logged and skipped; for an `Ok` path the file is opened and read with
`expect` (an I/O failure panics and aborts the whole run), the content is
registered in the store, the path is converted to a URL with `expect`, and
`check_syntax` publishes for that file; then the loop continues. -/
def indexEntries (fs : FileSystem) (pf : ParseFallible) (st : Backend) :
    List (Except String PathBuf) → PResult (Backend × List Publication)
  | [] => .ok (st, [])
  | .error _ :: rest => indexEntries fs pf st rest
  | .ok p :: rest =>
    match fs.readFile p with
    | none => .panicked "failed to read file"
    | some content =>
      let st' := set_doc st p content
      match fs.from_file_path p with
      | none => .panicked "failed to parse url"
      | some uri =>
        match checkSyntax pf uri content with
        | .panicked m => .panicked m
        | .ok pubs =>
          match indexEntries fs pf st' rest with
          | .panicked m => .panicked m
          | .ok (st2, ps) => .ok (st2, pubs ++ ps)

/-- `Backend::initialized`: `get_root` is unwrapped with
`expect("failed to get root path")` — an absent root panics — then the glob
pattern `**/*.lua` is pushed onto the root and every glob entry is processed.
Returns the final state and the publications in order. -/
def initializedLsp (fs : FileSystem) (pf : ParseFallible) (st : Backend) :
    PResult (Backend × List Publication) :=
  match get_root st with
  | none => .panicked "failed to get root path"
  | some root_path => indexEntries fs pf st (fs.glob (pushPath root_path "**/*.lua"))

/-- `lsp_types::TextDocumentItem`, restricted to the fields `did_open` reads. -/
structure TextDocumentItem where
  uri : Url
  language_id : String
  text : String
deriving DecidableEq, Repr

/-- `DidOpenTextDocumentParams`. -/
structure DidOpenTextDocumentParams where
  text_document : TextDocumentItem
deriving DecidableEq, Repr

/-- `Backend::did_open`: only when the URI converts to a path, the path is a
file and the language id is "lua", the text is stored (keyed by `uri.path()`)
and the pipeline runs; otherwise the event is dropped. -/
def did_open (fs : FileSystem) (pf : ParseFallible) (st : Backend)
    (params : DidOpenTextDocumentParams) : Backend × PResult (List Publication) :=
  match params.text_document.uri.filePath with
  | some path =>
    if fs.is_file path && params.text_document.language_id == "lua" then
      let uri := params.text_document.uri
      let content := params.text_document.text
      let st' := set_doc st uri.path content
      (st', checkSyntax pf uri content)
    else (st, .ok [])
  | none => (st, .ok [])

/-- A full-text content change (`TextDocumentContentChangeEvent.text`). -/
structure TextDocumentContentChangeEvent where
  text : String
deriving DecidableEq, Repr

/-- The document identifier of a change notification. -/
structure VersionedTextDocumentIdentifier where
  uri : Url
deriving DecidableEq, Repr

/-- `DidChangeTextDocumentParams`. -/
structure DidChangeTextDocumentParams where
  text_document : VersionedTextDocumentIdentifier
  content_changes : List TextDocumentContentChangeEvent
deriving DecidableEq, Repr

/-- `Backend::did_change`: `content_changes[0]` is read unconditionally before
the URI is validated — an empty list is an out-of-bounds panic — then, when
the URI converts to a path of an existing file, the pipeline runs on the
event's text; the store is not touched. -/
def did_change (fs : FileSystem) (pf : ParseFallible) (st : Backend)
    (params : DidChangeTextDocumentParams) : Backend × PResult (List Publication) :=
  match params.content_changes with
  | [] => (st, .panicked "index out of bounds")
  | change :: _ =>
    let uri := params.text_document.uri
    let content := change.text
    match uri.filePath with
    | some path =>
        if fs.is_file path then (st, checkSyntax pf uri content) else (st, .ok [])
    | none => (st, .ok [])

/-- The document identifier of a save notification. -/
structure TextDocumentIdentifier where
  uri : Url
deriving DecidableEq, Repr

/-- `DidSaveTextDocumentParams`. -/
structure DidSaveTextDocumentParams where
  text_document : TextDocumentIdentifier
  text : Option String
deriving DecidableEq, Repr

/-- `Backend::did_save`: when the URI converts to a path of an existing file
and the notification carries full text, the pipeline runs on that text;
otherwise the event is dropped. The store is not touched. -/
def did_save (fs : FileSystem) (pf : ParseFallible) (st : Backend)
    (params : DidSaveTextDocumentParams) : Backend × PResult (List Publication) :=
  let uri := params.text_document.uri
  match uri.filePath with
  | some path =>
    if fs.is_file path then
      match params.text with
      | some content => (st, checkSyntax pf uri content)
      | none => (st, .ok [])
    else (st, .ok [])
  | none => (st, .ok [])

/-- The negotiation rule as the specification words it: from the client's
offered list, UTF-8 if present, then UTF-16, then UTF-32, falling back to no
explicit encoding when the client offers none of these or no list at all.
Stated from the spec, for comparison with the negotiation inside
`initializeLsp`. -/
def negotiateSpec (offered : Option (List PositionEncodingKind)) :
    Option PositionEncodingKind :=
  match offered with
  | none => none
  | some encodings =>
      if encodings.contains PositionEncodingKind.utf8 then
        some PositionEncodingKind.utf8
      else if encodings.contains PositionEncodingKind.utf16 then
        some PositionEncodingKind.utf16
      else if encodings.contains PositionEncodingKind.utf32 then
        some PositionEncodingKind.utf32
      else
        none

/-! Concrete inputs used by witnesses and counterexamples. -/

/-- A parser reporting no errors for any source and version. -/
def pfNone : ParseFallible := fun _ _ => []

/-- A sample raw parser error spanning (1,1)-(1,2). -/
def errEx : FullMoonError := .tokenizerError ⟨1, 1⟩ ⟨1, 2⟩ "unexpected token"

/-- A parser reporting `errEx` under Lua 5.1 only. -/
def pfOnly51 : ParseFallible := fun _ v =>
  match v with
  | .lua51 => [errEx]
  | _ => []

/-- A parser agreeing with `pfNone` under Lua 5.1 but reporting `errEx` under
every other version. -/
def pfOff51 : ParseFallible := fun _ v =>
  match v with
  | .lua51 => []
  | _ => [errEx]

/-- A sample URL that converts to a file path. -/
def urlEx : Url := ⟨"/ws/f.lua", some "/ws/f.lua"⟩

/-- A URL whose path exists nowhere. -/
def urlMissing : Url := ⟨"/no/such", some "/no/such"⟩

/-- A filesystem on which nothing exists and every read fails. -/
def fsNone : FileSystem :=
  ⟨fun _ => false, fun _ => false, fun _ => none, fun _ => [], fun _ => none⟩

/-- A filesystem on which every path exists, every read yields "x", and URLs
convert both ways. -/
def fsAll : FileSystem :=
  ⟨fun _ => true, fun _ => true, fun _ => some "x", fun _ => [],
   fun p => some ⟨p, some p⟩⟩

/-- A filesystem whose glob discovers `/ws/a.lua` and `/ws/b.lua`, where
reading `/ws/a.lua` fails and reading `/ws/b.lua` yields "x". -/
def fsUnreadable : FileSystem :=
  ⟨fun _ => true, fun _ => true,
   fun p => if p = "/ws/b.lua" then some "x" else none,
   fun _ => [.ok "/ws/a.lua", .ok "/ws/b.lua"],
   fun p => some ⟨p, some p⟩⟩

/-- A backend whose root is set to `/ws`, store empty, locks healthy. -/
def stRooted : Backend := ⟨⟨false, some "/ws"⟩, ⟨false, []⟩⟩

/-- A backend with both locks poisoned. -/
def stPoisoned : Backend := ⟨⟨true, none⟩, ⟨true, []⟩⟩

/-- A backend whose store holds the stale text "old" for `/ws/f.lua`. -/
def stOld : Backend := ⟨⟨false, none⟩, ⟨false, [("/ws/f.lua", "old")]⟩⟩

/-- A didChange notification carrying the replacement text "new" for `urlEx`. -/
def changeNew : DidChangeTextDocumentParams := ⟨⟨urlEx⟩, [⟨"new"⟩]⟩

/-- InitializeParams with no client capabilities and the missing root URI. -/
def initParamsBad : InitializeParams := ⟨⟨none⟩, some urlMissing⟩

/-- A sample raw diagnostic whose span starts and ends at (1,1). -/
def dEx : LuascanDiagnostic := ⟨⟨1, 1, 1, 1⟩, "err"⟩

/-- C1 (counterexample): with a root URI pointing to a non-existent path,
`initialize` still returns capabilities (server info present), but the
subsequent `initialized` handler panics on the absent root instead of skipping
indexing and continuing — refuting "the server does not crash". -/
theorem init_missing_root_cex :
    ((initializeLsp fsNone Backend.new initParamsBad).2).server_info
        = some ⟨"luascan", some VERSION⟩ ∧
    initializedLsp fsNone pfNone (initializeLsp fsNone Backend.new initParamsBad).1
        = .panicked "failed to get root path" :=
  ⟨rfl, rfl⟩

/-- C1 (amended): when the root URI's path does not exist, `initialize` leaves
the state unchanged and still returns the server info, but the subsequent
`initialized` handler panics with "failed to get root path" (the `expect` on
the absent root) — no indexing occurs, yet the handler does not continue
gracefully. -/
theorem init_missing_root_panics (fs : FileSystem) (pf : ParseFallible)
    (st : Backend) (params : InitializeParams) (url : Url)
    (hu : params.root_uri = some url)
    (hex : fs.pathExists url.path = false)
    (hroot : st.root = ⟨false, none⟩) :
    (initializeLsp fs st params).1 = st ∧
    ((initializeLsp fs st params).2).server_info = some ⟨"luascan", some VERSION⟩ ∧
    initializedLsp fs pf (initializeLsp fs st params).1
      = .panicked "failed to get root path" := by
  have h1 : (initializeLsp fs st params).1 = st := by
    simp [initializeLsp, hu, set_root, hex]
  refine ⟨h1, rfl, ?_⟩
  rw [h1]
  simp [initializedLsp, get_root, hroot, Lock.readLock]

/-- C1 (witness): the amended statement holds at the concrete missing-root
scenario. -/
theorem init_missing_root_panics_witness :
    initParamsBad.root_uri = some urlMissing ∧
    fsNone.pathExists urlMissing.path = false ∧
    Backend.new.root = ⟨false, none⟩ ∧
    ((initializeLsp fsNone Backend.new initParamsBad).1 = Backend.new ∧
     ((initializeLsp fsNone Backend.new initParamsBad).2).server_info
        = some ⟨"luascan", some VERSION⟩ ∧
     initializedLsp fsNone pfNone (initializeLsp fsNone Backend.new initParamsBad).1
        = .panicked "failed to get root path") :=
  ⟨rfl, rfl, rfl,
   init_missing_root_panics fsNone pfNone Backend.new initParamsBad urlMissing
     rfl rfl rfl⟩

/-- C2 (counterexample): an unsupported dialect makes `parse` panic ("failed
version") instead of rejecting the configuration as an error without a
crash. -/
theorem unsupported_dialect_cex :
    parse pfNone "x" (RuntimeVersion.Unsupported "LuaJIT")
      = .panicked "failed version" := rfl

/-- C2 (amended): every dialect value outside the four supported versions
makes `parse` panic before the parser collaborator is consulted: the result is
the panic "failed version", and it is independent of the parser function. -/
theorem unsupported_dialect_panics (pf pf2 : ParseFallible) (code nm : String) :
    parse pf code (RuntimeVersion.Unsupported nm) = .panicked "failed version" ∧
    parse pf code (RuntimeVersion.Unsupported nm)
      = parse pf2 code (RuntimeVersion.Unsupported nm) :=
  ⟨rfl, rfl⟩

/-- C3 (counterexample): indexing a workspace whose first discovered file is
unreadable panics and aborts the whole run — the second file is never scanned
— refuting "that file alone is logged and skipped and the scan continues". -/
theorem indexing_unreadable_aborts_cex :
    initializedLsp fsUnreadable pfNone stRooted
      = .panicked "failed to read file" := by decide

/-- C3 (amended): during indexing, a glob enumeration error is skipped and the
scan continues with the remaining entries, but a discovered file whose
contents cannot be read makes the run panic ("failed to read file"), aborting
the remaining scan. -/
theorem indexing_failure_modes (fs : FileSystem) (pf : ParseFallible)
    (st : Backend) (e : String) (p : PathBuf)
    (rest : List (Except String PathBuf))
    (hread : fs.readFile p = none) :
    indexEntries fs pf st (.error e :: rest) = indexEntries fs pf st rest ∧
    indexEntries fs pf st (.ok p :: rest) = .panicked "failed to read file" := by
  refine ⟨rfl, ?_⟩
  simp [indexEntries, hread]

/-- C3 (witness): the amended statement holds at the concrete unreadable
file. -/
theorem indexing_failure_modes_witness :
    fsUnreadable.readFile "/ws/a.lua" = none ∧
    (indexEntries fsUnreadable pfNone stRooted [.error "ge"]
        = indexEntries fsUnreadable pfNone stRooted [] ∧
     indexEntries fsUnreadable pfNone stRooted [.ok "/ws/a.lua"]
        = .panicked "failed to read file") :=
  ⟨by decide,
   indexing_failure_modes fsUnreadable pfNone stRooted "ge" "/ws/a.lua" []
     (by decide)⟩

/-- C4 (counterexample): with a parser that errs under Lua 5.1 only, the
pipeline's published result differs from what parsing at the dialect Lua 5.4
would give — the parser is invoked with a fixed version, not the configured
one. -/
theorem fixed_dialect_cex :
    checkSyntax pfOnly51 urlEx "code"
      ≠ (parse pfOnly51 "code" RuntimeVersion.Lua54).map
          (fun errs => [Publication.mk urlEx (errs.map toLspDiagnostic)]) := by
  decide

/-- C4 (amended): every diagnostic-pipeline run invokes the parser with the
fixed dialect Lua 5.1 (the `Backend` discards its options): the published
result depends only on the parser's behaviour at Lua 5.1. -/
theorem fixed_dialect_lua51 (pf pf2 : ParseFallible) (uri : Url)
    (content : String)
    (h : pf content LuaVersion.lua51 = pf2 content LuaVersion.lua51) :
    checkSyntax pf uri content = checkSyntax pf2 uri content := by
  simp [checkSyntax, parse, h]

/-- C4 (witness): two parsers agreeing under Lua 5.1 but disagreeing on every
other version produce the same pipeline output. -/
theorem fixed_dialect_lua51_witness :
    pfNone "c" LuaVersion.lua51 = pfOff51 "c" LuaVersion.lua51 ∧
    checkSyntax pfNone urlEx "c" = checkSyntax pfOff51 urlEx "c" :=
  ⟨rfl, fixed_dialect_lua51 pfNone pfOff51 urlEx "c" rfl⟩

/-- C5: each of the four raw span coordinates is translated independently by a
saturating decrement of one (after the u32 cast); the value 1 maps to 0 and
every coordinate value ≤ 1, including 0, maps to 0 — the protocol coordinate
is a natural number, never negative. -/
theorem coordinate_translation_saturates (d : LuascanDiagnostic) (c : Nat)
    (h : c ≤ 1) :
    (toLspDiagnostic d).range.start.line = satSub1u32 d.loc.line_start ∧
    (toLspDiagnostic d).range.start.character = satSub1u32 d.loc.col_start ∧
    (toLspDiagnostic d).range.«end».line = satSub1u32 d.loc.line_end ∧
    (toLspDiagnostic d).range.«end».character = satSub1u32 d.loc.col_end ∧
    satSub1u32 1 = 0 ∧ satSub1u32 c = 0 := by
  refine ⟨rfl, rfl, rfl, rfl, by decide, ?_⟩
  unfold satSub1u32
  omega

/-- C5 (witness): the translation at the concrete span starting and ending at
(1,1), and the saturation at coordinate 0. -/
theorem coordinate_translation_saturates_witness :
    (0 : Nat) ≤ 1 ∧
    ((toLspDiagnostic dEx).range.start.line = satSub1u32 dEx.loc.line_start ∧
     (toLspDiagnostic dEx).range.start.character = satSub1u32 dEx.loc.col_start ∧
     (toLspDiagnostic dEx).range.«end».line = satSub1u32 dEx.loc.line_end ∧
     (toLspDiagnostic dEx).range.«end».character = satSub1u32 dEx.loc.col_end ∧
     satSub1u32 1 = 0 ∧ satSub1u32 0 = 0) :=
  ⟨by decide, coordinate_translation_saturates dEx 0 (by decide)⟩

/-- C6 (counterexample): a didChange carrying the new text "new" for a stored
document leaves the store entry at "old" — the entry is not replaced. -/
theorem did_change_no_store_update_cex :
    (did_change fsAll pfNone stOld changeNew).1 = stOld ∧
    get_doc (did_change fsAll pfNone stOld changeNew).1 "/ws/f.lua" = some "old" ∧
    get_doc (did_change fsAll pfNone stOld changeNew).1 "/ws/f.lua" ≠ some "new" := by
  refine ⟨by decide, by decide, by decide⟩

/-- C6 (amended): didChange and didSave never modify the Document Store (they
only re-run the pipeline on the text carried by the event); only didOpen and
workspace discovery write store entries. -/
theorem did_change_save_leave_store (fs : FileSystem) (pf : ParseFallible)
    (st : Backend) (p : DidChangeTextDocumentParams)
    (q : DidSaveTextDocumentParams) :
    (did_change fs pf st p).1 = st ∧ (did_save fs pf st q).1 = st := by
  constructor
  · rcases p with ⟨td, changes⟩
    cases changes with
    | nil => rfl
    | cons c rest =>
      simp only [did_change]
      cases td.uri.filePath with
      | none => rfl
      | some path => cases hb : fs.is_file path <;> simp [hb]
  · rcases q with ⟨td, txt⟩
    simp only [did_save]
    cases td.uri.filePath with
    | none => rfl
    | some path =>
      cases hb : fs.is_file path
      · simp [hb]
      · cases txt <;> simp [hb]

/-- C7: when the parser reports zero errors for the source under Lua 5.1, the
pipeline still ends by publishing exactly one notification for the URI,
carrying the empty diagnostic array. -/
theorem clean_parse_publishes_empty (pf : ParseFallible) (uri : Url)
    (content : String) (h : pf content LuaVersion.lua51 = []) :
    checkSyntax pf uri content = .ok [⟨uri, []⟩] := by
  simp [checkSyntax, parse, h, PResult.map]

/-- C7 (witness): the error-free parser at a concrete valid source publishes
the empty array for the URI. -/
theorem clean_parse_publishes_empty_witness :
    pfNone "local x = 1" LuaVersion.lua51 = [] ∧
    checkSyntax pfNone urlEx "local x = 1" = .ok [⟨urlEx, []⟩] :=
  ⟨rfl, clean_parse_publishes_empty pfNone urlEx "local x = 1" rfl⟩

/-- C8: the encoding negotiated by `initialize` is exactly the spec's
preference rule — UTF-8, then UTF-16, then UTF-32 from the client's offered
list, and no explicit encoding when no list is offered or none of the three is
in it. -/
theorem position_encoding_preference (fs : FileSystem) (st : Backend)
    (params : InitializeParams) :
    ((initializeLsp fs st params).2).capabilities.position_encoding
      = negotiateSpec (params.capabilities.general.bind
          (fun g => g.position_encodings)) := by
  rcases params with ⟨⟨general⟩, root_uri⟩
  cases general with
  | none => rfl
  | some g =>
    rcases g with ⟨encodings⟩
    cases encodings with
    | none => rfl
    | some l => rfl

/-- C9: a poisoned root lock makes `get_root` yield `none`, a poisoned
workspace lock makes `get_doc` yield `none` (as for an absent entry), and a
write through `set_doc` on a poisoned lock is silently contained, leaving the
state unchanged — none of the accessors propagates a failure. -/
theorem lock_poisoning_contained (st : Backend) (path : PathBuf)
    (content : String) (hr : st.root.poisoned = true)
    (hw : st.workspace.poisoned = true) :
    get_root st = none ∧ get_doc st path = none ∧
    set_doc st path content = st := by
  refine ⟨?_, ?_, ?_⟩ <;>
    simp [get_root, get_doc, set_doc, Lock.readLock, Lock.modify, hr, hw]

/-- C9 (witness): the containment at a concrete backend with both locks
poisoned. -/
theorem lock_poisoning_contained_witness :
    stPoisoned.root.poisoned = true ∧ stPoisoned.workspace.poisoned = true ∧
    (get_root stPoisoned = none ∧ get_doc stPoisoned "/p" = none ∧
     set_doc stPoisoned "/p" "c" = stPoisoned) :=
  ⟨rfl, rfl, lock_poisoning_contained stPoisoned "/p" "c" rfl rfl⟩

/-- C10: the didChange handler panics exactly when the notification's
content-changes list is empty — the first entry is read before any URI or path
validation, so such a notification is not dropped like other malformed
events. -/
theorem did_change_empty_changes_panic (fs : FileSystem) (pf : ParseFallible)
    (st : Backend) (params : DidChangeTextDocumentParams) :
    ((did_change fs pf st params).2).isPanicked = true ↔
      params.content_changes = [] := by
  rcases params with ⟨td, changes⟩
  cases changes with
  | nil => simp [did_change, PResult.isPanicked]
  | cons c rest =>
    simp only [did_change]
    cases td.uri.filePath with
    | none => simp [PResult.isPanicked]
    | some path =>
      cases hb : fs.is_file path <;>
        simp [hb, PResult.isPanicked, checkSyntax, parse, PResult.map]

end Luascan
